import Mathlib

/-!
Verification of `lib/charms/vault_k8s/v0/vault_client.py`, the library the
charm uses to administer a Vault cluster through its HTTP API.

The Python class `Vault` wraps an `hvac.Client`. Each wrapper method is
embedded below as a Lean function over the outcome of the underlying client
calls it performs: a call that can fail is represented by an
`Except VaultErr` value (the "oracle" describing what the transport and the
cluster did), and the wrapper's own control flow — in particular which
exception classes it catches and which it lets propagate — is translated
directly from the source.

Where a claim depends on the behaviour of the cluster itself (which is an
external collaborator, not code of this repository), a small state-machine
model of the relevant endpoints is defined; each such definition carries a
doc comment starting with "Modelled from the spec:".
-/

namespace VaultClient

/-- Exception taxonomy of the client, from the imports of the source file:
hvac raises `InvalidRequest` (HTTP 400), `InvalidPath`, or some other
subclass of `VaultError`; the HTTP layer raises `RequestException`
(transport/connection failure). Every error the wrapper can see is one of
these four classes. -/
inductive VaultErr where
  | invalidRequest (msg : String)
  | invalidPath (msg : String)
  | otherVaultError (msg : String)
  | requestException (msg : String)
deriving DecidableEq, Repr

/-- Whether an exception is caught by a Python clause `except InvalidRequest`. -/
def VaultErr.isInvalidRequest : VaultErr → Bool
  | .invalidRequest _ => true
  | _ => false

/-- Whether an exception is caught by `except (VaultError, RequestException)`:
`InvalidRequest` and `InvalidPath` are subclasses of `VaultError`, so every
error of the taxonomy is caught by that clause. -/
def VaultErr.isVaultErrorOrRequestException : VaultErr → Bool := fun _ => true

/-! ## Health status: `is_api_available` and `is_active` -/

/-- Health of the node as reported by the cluster on a successful query. -/
inductive HealthState where
  | active
  | standby
  | sealedNode
  | uninitialized
deriving DecidableEq, Repr

/-- Modelled from the spec: the cluster's health endpoint answers with HTTP
status 200 for an active node, 200 for a standby node when the query passes
standby_ok (429 otherwise), 503 for a sealed node and 501 for an
uninitialized one; the health endpoint does not raise for these expected
statuses. -/
def healthStatusCode (standby_ok : Bool) : HealthState → Nat
  | .active => 200
  | .standby => if standby_ok then 200 else 429
  | .sealedNode => 503
  | .uninitialized => 501

/-- HTTP response of the health query, as seen by the wrapper. -/
structure HealthResponse where
  status_code : Nat
deriving DecidableEq, Repr

/-- The client call `sys.read_health_status`: on a successful exchange it
returns the response whose status code reflects the node's health state;
on a failed exchange it raises the corresponding error. The outcome of the
exchange is the oracle argument. -/
def read_health_status (standby_ok : Bool) (outcome : Except VaultErr HealthState) :
    Except VaultErr HealthResponse :=
  match outcome with
  | .ok h => .ok ⟨healthStatusCode standby_ok h⟩
  | .error e => .error e

namespace Vault

/-- Source `Vault.is_api_available`: queries health with standby_ok=True,
returns True on success; catches `(VaultError, RequestException)` — every
error of the taxonomy — and returns False. -/
def is_api_available (outcome : Except VaultErr HealthState) : Bool :=
  match read_health_status true outcome with
  | .ok _ => true
  | .error _ => false

/-- Source `Vault.is_active`: queries health with standby_ok=True and
returns whether the response status code is 200; catches
`(VaultError, RequestException)` and returns False. -/
def is_active (outcome : Except VaultErr HealthState) : Bool :=
  match read_health_status true outcome with
  | .ok health_status => health_status.status_code == 200
  | .error _ => false

end Vault

/-! ## Raft autopilot state: `get_raft_cluster_state` and
`is_raft_cluster_healthy` -/

/-- The `data` envelope of the autopilot state payload; only the `healthy`
field is read by the wrapper. -/
structure AutopilotData where
  healthy : Bool
deriving DecidableEq, Repr

/-- Payload returned by the low-level adapter read of
`v1/sys/storage/raft/autopilot/state`. -/
structure AutopilotResponse where
  data : AutopilotData
deriving DecidableEq, Repr

namespace Vault

/-- Source `Vault.get_raft_cluster_state`: performs the adapter read and
projects the `data` envelope; no try/except, so a failing read propagates. -/
def get_raft_cluster_state (outcome : Except VaultErr AutopilotResponse) :
    Except VaultErr AutopilotData :=
  match outcome with
  | .ok response => .ok response.data
  | .error e => .error e

/-- Source `Vault.is_raft_cluster_healthy`: projects the `healthy` field of
`get_raft_cluster_state`; no try/except, so a failing read propagates. -/
def is_raft_cluster_healthy (outcome : Except VaultErr AutopilotResponse) :
    Except VaultErr Bool :=
  match get_raft_cluster_state outcome with
  | .ok d => .ok d.healthy
  | .error e => .error e

end Vault

/-! ## PKI: signing a CSR, and checking the CA certificate of a mount -/

/-- Source dataclass `Certificate`: a certificate produced by the PKI
secrets engine. -/
structure Certificate where
  certificate : String
  ca : String
  chain : List String
deriving DecidableEq, Repr

/-- The `data` fields of the response of `secrets.pki.sign_certificate` that
the wrapper reads. -/
structure SignResponseData where
  certificate : String
  issuing_ca : String
  ca_chain : List String
deriving DecidableEq, Repr

namespace Vault

/-- Source `Vault.sign_pki_certificate_signing_request`: on a successful sign
call, builds a `Certificate` from the response's certificate, issuing_ca and
ca_chain fields; catches `InvalidRequest` (the cluster's request-level
rejection, e.g. a CSR that fails the role's constraints) and returns None;
any other error propagates. -/
def sign_pki_certificate_signing_request
    (outcome : Except VaultErr SignResponseData) :
    Except VaultErr (Option Certificate) :=
  match outcome with
  | .ok response =>
      .ok (some { certificate := response.certificate
                  ca := response.issuing_ca
                  chain := response.ca_chain })
  | .error e =>
      if e.isInvalidRequest then .ok none else .error e

/-- Source `Vault.is_intermediate_ca_set`: reads the CA certificate of the
mount via `secrets.pki.read_ca_certificate` (the oracle `readCA` gives the
outcome of that read per mount) and compares it with the supplied
certificate; no try/except, so a failing read propagates. -/
def is_intermediate_ca_set (readCA : String → Except VaultErr String)
    (mount certificate : String) : Except VaultErr Bool :=
  match readCA mount with
  | .ok intermediate_ca => .ok (intermediate_ca == certificate)
  | .error e => .error e

/-- Source `Vault.is_pki_ca_certificate_set`: reads the CA certificate of
the mount via `secrets.pki.read_ca_certificate` and compares it with the
supplied certificate; no try/except, so a failing read propagates. -/
def is_pki_ca_certificate_set (readCA : String → Except VaultErr String)
    (mount certificate : String) : Except VaultErr Bool :=
  match readCA mount with
  | .ok existing_certificate => .ok (existing_certificate == certificate)
  | .error e => .error e

end Vault

/-! ## Unseal -/

/-- Client behaviour seen by `unseal`: the outcome of the i-th call to
`sys.submit_unseal_key` (submissions are numbered in the order they are
made), and the outcome of the `sys.is_sealed()` query made inside the
exception handler. -/
structure UnsealClient where
  submit : Nat → Except VaultErr Unit
  sealedQuery : Except VaultErr Bool

/-- The `for unseal_key in unseal_keys:` loop: submits the keys one at a
time, in list order, stopping at the first submission that raises. Returns
the outcome of the loop together with the list of keys actually submitted. -/
def submitKeysFrom (c : UnsealClient) : Nat → List String →
    Except VaultErr Unit × List String
  | _, [] => (.ok (), [])
  | i, k :: rest =>
    match c.submit i with
    | .ok _ =>
        let r := submitKeysFrom c (i + 1) rest
        (r.1, k :: r.2)
    | .error e => (.error e, [k])

namespace Vault

/-- Source `Vault.unseal` (named `unsealVault` here since `unseal` is a Lean keyword): submits the keys one at a time; catches only
`InvalidRequest`, and inside the handler re-raises the caught error if
`sys.is_sealed()` reports the cluster still sealed, returning normally if it
reports not sealed (an error of the seal-status query itself propagates).
Any non-InvalidRequest error from a submission is not caught and propagates.
Returns the outcome together with the list of keys actually submitted. -/
def unsealVault (c : UnsealClient) (unseal_keys : List String) :
    Except VaultErr Unit × List String :=
  let r := submitKeysFrom c 0 unseal_keys
  match r.1 with
  | .ok _ => (.ok (), r.2)
  | .error e =>
      if e.isInvalidRequest then
        match c.sealedQuery with
        | .ok true => (.error e, r.2)
        | .ok false => (.ok (), r.2)
        | .error e2 => (.error e2, r.2)
      else (.error e, r.2)

end Vault

/-! ## Initialization -/

/-- Cluster state relevant to `sys.initialize`. The `freshRootToken` and
`freshKey` fields stand for the entropy the cluster would draw from when
generating new unseal material. -/
structure InitState where
  initializedFlag : Bool
  sealedFlag : Bool
  freshRootToken : String
  freshKey : Nat → String

/-- Fields of the response of `sys.initialize` that the wrapper reads. -/
structure InitResult where
  root_token : String
  keys : List String
deriving DecidableEq, Repr

/-- The error the cluster answers with when asked to initialize twice. -/
def alreadyInitializedErr : VaultErr :=
  .invalidRequest "Vault is already initialized"

/-- Modelled from the spec: the cluster endpoint behind `sys.initialize`
(the cluster is an external collaborator; its state machine is given in the
spec). On an uninitialized cluster it returns fresh unseal material — a root
token and `secret_shares` unseal keys — and moves the cluster to
initialized-and-sealed; on an already-initialized cluster it rejects with
the already-initialized `InvalidRequest` and leaves the state unchanged. -/
def sysInit (secret_shares secret_threshold : Nat) (st : InitState) :
    Except VaultErr InitResult × InitState :=
  if st.initializedFlag then
    (.error alreadyInitializedErr, st)
  else
    (.ok { root_token := st.freshRootToken
           keys := (List.range secret_shares).map st.freshKey },
     { st with initializedFlag := true, sealedFlag := true })

namespace Vault

/-- Source `Vault.initialize` (named `initializeVault` here): calls
`sys.initialize` with the given shares and threshold and returns the pair of
the response's root_token and keys fields; no try/except, so a cluster
rejection propagates. -/
def initializeVault (secret_shares secret_threshold : Nat) (st : InitState) :
    Except VaultErr (String × List String) × InitState :=
  match sysInit secret_shares secret_threshold st with
  | (.ok initialize_response, st2) =>
      (.ok (initialize_response.root_token, initialize_response.keys), st2)
  | (.error e, st2) => (.error e, st2)

end Vault

/-! ## Raft peers -/

/-- A member of the raft peer list, as reported by the peer-configuration
read; the wrapper only reads its node_id field. -/
structure RaftPeer where
  node_id : String
deriving DecidableEq, Repr

/-- The raft peer set of the cluster. -/
structure RaftState where
  peers : List RaftPeer
deriving DecidableEq, Repr

/-- Modelled from the spec: the cluster endpoint behind
`sys.remove_raft_node` removes every peer whose node id equals the given
server id, reports success whether or not such a peer existed (removing a
non-member is not distinguished from removing a member), and the removal is
reflected in the next peer-configuration read. A transport-level failure
(the `fault` argument) is raised instead and leaves the peer set unchanged. -/
def sysRemoveRaftNode (fault : Option VaultErr) (server_id : String)
    (st : RaftState) : Except VaultErr Unit × RaftState :=
  match fault with
  | some e => (.error e, st)
  | none => (.ok (), ⟨st.peers.filter (fun p => p.node_id != server_id)⟩)

/-- Modelled from the spec: `sys.read_raft_config` reports the current peer
list (the servers field of the config envelope). -/
def sysReadRaftConfig (st : RaftState) : List RaftPeer := st.peers

namespace Vault

/-- Source `Vault.remove_raft_node`: a single call to
`sys.remove_raft_node` with the given node id; no try/except, so a
transport failure propagates. -/
def remove_raft_node (fault : Option VaultErr) (node_id : String)
    (st : RaftState) : Except VaultErr Unit × RaftState :=
  sysRemoveRaftNode fault node_id st

/-- The `for peer in raft_config["data"]["config"]["servers"]:` loop of
`is_node_in_raft_peers`: returns True at the first peer whose node_id equals
the given node id, False if the list is exhausted. -/
def scanForNode (node_id : String) : List RaftPeer → Bool
  | [] => false
  | peer :: rest =>
      if peer.node_id == node_id then true else scanForNode node_id rest

/-- Source `Vault.is_node_in_raft_peers`: reads the raft config and scans
its server list for an exact node_id match. -/
def is_node_in_raft_peers (node_id : String) (st : RaftState) : Bool :=
  scanForNode node_id (sysReadRaftConfig st)

/-- Source `Vault.get_num_raft_peers`: reads the raft config and returns the
length of its server list. -/
def get_num_raft_peers (st : RaftState) : Nat :=
  (sysReadRaftConfig st).length

end Vault

/-! ## Enabling audit devices, auth methods and secrets engines -/

/-- Source enum `AuditDeviceType`. -/
inductive AuditDeviceType where
  | file
  | syslog
  | socket
deriving DecidableEq, Repr

/-- The string value of each audit device type, from the source enum. -/
def AuditDeviceType.value : AuditDeviceType → String
  | .file => "file"
  | .syslog => "syslog"
  | .socket => "socket"

/-- Source enum `SecretsBackend`. -/
inductive SecretsBackend where
  | kv_v2
  | pki
deriving DecidableEq, Repr

/-- The string value of each secrets backend, from the source enum. -/
def SecretsBackend.value : SecretsBackend → String
  | .kv_v2 => "kv-v2"
  | .pki => "pki"

/-- The mount tables of the cluster: the mount points of the enabled audit
devices, the enabled auth method types, and the mount paths of the enabled
secrets engines. -/
structure MountState where
  auditDevices : List String
  authMethods : List String
  secretsEngines : List String
deriving DecidableEq, Repr

/-- Modelled from the spec: the cluster endpoint behind
`sys.enable_audit_device` rejects enabling a device at an already-used mount
with an InvalidRequest and leaves the state unchanged; otherwise it mounts
the device there. The wrapper passes no mount path, so the device mounts at
the device type's default mount (the type's string value). -/
def sysEnableAuditDevice (mount : String) (st : MountState) :
    Except VaultErr Unit × MountState :=
  if mount ∈ st.auditDevices then
    (.error (.invalidRequest "path already in use"), st)
  else
    (.ok (), { st with auditDevices := st.auditDevices ++ [mount] })

/-- Modelled from the spec: the cluster endpoint behind
`sys.enable_auth_method` rejects enabling an already-enabled method type
with an InvalidRequest and leaves the state unchanged; otherwise it enables
the method. -/
def sysEnableAuthMethod (method_type : String) (st : MountState) :
    Except VaultErr Unit × MountState :=
  if method_type ∈ st.authMethods then
    (.error (.invalidRequest "path already in use"), st)
  else
    (.ok (), { st with authMethods := st.authMethods ++ [method_type] })

/-- Modelled from the spec: the cluster endpoint behind
`sys.enable_secrets_engine` rejects enabling an engine at an already-used
path with an InvalidRequest and leaves the state unchanged; otherwise it
mounts the engine there. -/
def sysEnableSecretsEngine (path : String) (st : MountState) :
    Except VaultErr Unit × MountState :=
  if path ∈ st.secretsEngines then
    (.error (.invalidRequest "path already in use"), st)
  else
    (.ok (), { st with secretsEngines := st.secretsEngines ++ [path] })

namespace Vault

/-- Source `Vault.enable_audit_device`: calls `sys.enable_audit_device` with
the device type (and the path only as the file_path option — no mount path
is passed, so the mount is the type's default); catches `InvalidRequest`
("audit device already enabled") and returns normally; any other error
propagates. -/
def enable_audit_device (device_type : AuditDeviceType) (path : String)
    (st : MountState) : Except VaultErr Unit × MountState :=
  match sysEnableAuditDevice device_type.value st with
  | (.ok _, st2) => (.ok (), st2)
  | (.error e, st2) =>
      if e.isInvalidRequest then (.ok (), st2) else (.error e, st2)

/-- Source `Vault.enable_approle_auth_method`: calls
`sys.enable_auth_method` with method type "approle"; catches
`InvalidRequest` ("approle already enabled") and returns normally; any other
error propagates. -/
def enable_approle_auth_method (st : MountState) :
    Except VaultErr Unit × MountState :=
  match sysEnableAuthMethod "approle" st with
  | (.ok _, st2) => (.ok (), st2)
  | (.error e, st2) =>
      if e.isInvalidRequest then (.ok (), st2) else (.error e, st2)

/-- Source `Vault.enable_secrets_engine`: calls `sys.enable_secrets_engine`
with the backend type and the given path; catches `InvalidRequest`
("backend already enabled") and returns normally; any other error
propagates. -/
def enable_secrets_engine (backend_type : SecretsBackend) (path : String)
    (st : MountState) : Except VaultErr Unit × MountState :=
  match sysEnableSecretsEngine path st with
  | (.ok _, st2) => (.ok (), st2)
  | (.error e, st2) =>
      if e.isInvalidRequest then (.ok (), st2) else (.error e, st2)

end Vault

/-! ## Raft snapshots -/

/-- The opaque snapshot blob: its storage contents, stamped with the unseal
key in use when the snapshot was taken (which the non-forced restore
endpoint verifies). -/
structure SnapshotBlob where
  payload : String
  sealKeyAtBackup : String
deriving DecidableEq, Repr

/-- The storage of the cluster together with its currently active unseal
key. -/
structure StorageState where
  payload : String
  activeUnsealKey : String
deriving DecidableEq, Repr

/-- Modelled from the spec: `sys.take_raft_snapshot` returns the storage
contents stamped with the currently active unseal key; the cluster state is
unchanged. -/
def sysTakeRaftSnapshot (st : StorageState) :
    Except VaultErr SnapshotBlob × StorageState :=
  (.ok { payload := st.payload, sealKeyAtBackup := st.activeUnsealKey }, st)

/-- Modelled from the spec: the plain `sys.restore_raft_snapshot` endpoint
verifies the snapshot against the currently active unseal key and rejects
the restore when they differ; on a match it installs the snapshot's
contents. -/
def sysRestoreRaftSnapshot (snapshot : SnapshotBlob) (st : StorageState) :
    Except VaultErr Unit × StorageState :=
  if snapshot.sealKeyAtBackup == st.activeUnsealKey then
    (.ok (), { st with payload := snapshot.payload })
  else
    (.error (.invalidRequest "could not verify snapshot"), st)

/-- Modelled from the spec: the forced variant
`sys.force_restore_raft_snapshot` skips the unseal-key verification and
always installs the snapshot's contents. -/
def sysForceRestoreRaftSnapshot (snapshot : SnapshotBlob) (st : StorageState) :
    Except VaultErr Unit × StorageState :=
  (.ok (), { st with payload := snapshot.payload })

namespace Vault

/-- Source `Vault.create_snapshot`: a single call to
`sys.take_raft_snapshot`. -/
def create_snapshot (st : StorageState) :
    Except VaultErr SnapshotBlob × StorageState :=
  sysTakeRaftSnapshot st

/-- Source `Vault.restore_snapshot`: a single call to
`sys.force_restore_raft_snapshot` — always the forced variant, so the
restore succeeds even if the unseal key at backup time differs from the
current one. -/
def restore_snapshot (snapshot : SnapshotBlob) (st : StorageState) :
    Except VaultErr Unit × StorageState :=
  sysForceRestoreRaftSnapshot snapshot st

end Vault

/-! ## Concrete instances used by the witnesses and counterexamples -/

/-- A client whose first submission is rejected at the transport level
(`RequestException`) while the seal-status query would report not sealed. -/
def unsealClientCrash : UnsealClient :=
  { submit := fun _ => .error (.requestException "connection aborted")
    sealedQuery := .ok false }

/-- A client that accepts every unseal key submission. -/
def unsealClientOk : UnsealClient :=
  { submit := fun _ => .ok ()
    sealedQuery := .ok false }

/-- A client that accepts the first submission, rejects the second with
InvalidRequest, and whose seal-status query reports not sealed (another
unsealer won the race). -/
def unsealClientRace : UnsealClient :=
  { submit := fun i => if i == 0 then .ok () else .error (.invalidRequest "already unsealed")
    sealedQuery := .ok false }

/-- An uninitialized cluster with fixed entropy. -/
def initStateEx : InitState :=
  { initializedFlag := false
    sealedFlag := false
    freshRootToken := "root-token"
    freshKey := fun n => "unseal-key-" ++ toString n }

/-! ## Theorems -/

/-- C7: is_api_available and is_active never propagate an error — every
failure of the health query (all four error classes are caught by the
`except (VaultError, RequestException)` clause) becomes the return value
False; on a successful query is_api_available returns True, and is_active
returns True exactly when the health response carries status code 200,
which includes a standby node since the query passes standby_ok=True. -/
theorem is_api_available_is_active_swallow_errors (e : VaultErr) (h : HealthState) :
    Vault.is_api_available (.error e) = false ∧
    Vault.is_active (.error e) = false ∧
    Vault.is_api_available (.ok h) = true ∧
    (Vault.is_active (.ok h) = true ↔ healthStatusCode true h = 200) ∧
    Vault.is_active (.ok HealthState.standby) = true := by
  refine ⟨rfl, rfl, rfl, ?_, rfl⟩
  simp [Vault.is_active, read_health_status]

/-- C3: is_raft_cluster_healthy returns exactly the boolean healthy field of
the data envelope of the autopilot status query, and a failure of that query
propagates to the caller — unlike is_active, which converts the same failure
to false. -/
theorem is_raft_cluster_healthy_projects_and_propagates
    (r : AutopilotResponse) (e : VaultErr) :
    Vault.is_raft_cluster_healthy (.ok r) = .ok r.data.healthy ∧
    Vault.is_raft_cluster_healthy (.error e) = .error e ∧
    Vault.is_active (.error e) = false :=
  ⟨rfl, rfl, rfl⟩

/-- C8: sign_pki_certificate_signing_request returns None (not a raised
error) when the cluster rejects the signing request — the request-level
InvalidRequest rejection, e.g. a CSR violating the role's constraints — and
on success returns a Certificate whose certificate, ca and chain fields are
the response's certificate, issuing_ca and ca_chain fields. -/
theorem sign_pki_csr_rejection_and_success (d : SignResponseData) (msg : String) :
    Vault.sign_pki_certificate_signing_request (.ok d) =
      .ok (some { certificate := d.certificate
                  ca := d.issuing_ca
                  chain := d.ca_chain }) ∧
    Vault.sign_pki_certificate_signing_request (.error (.invalidRequest msg)) =
      .ok none :=
  ⟨rfl, rfl⟩

/-- C10: is_intermediate_ca_set and is_pki_ca_certificate_set are
extensionally equivalent — for every transport behaviour of the CA read,
every mount and every certificate they produce identical results and
identical errors. -/
theorem is_intermediate_ca_set_eq_is_pki_ca_certificate_set
    (readCA : String → Except VaultErr String) (mount certificate : String) :
    Vault.is_intermediate_ca_set readCA mount certificate =
      Vault.is_pki_ca_certificate_set readCA mount certificate := by
  unfold Vault.is_intermediate_ca_set Vault.is_pki_ca_certificate_set
  cases readCA mount <;> rfl

/-- C2: on an uninitialized cluster, initialize returns the root token and
the unseal keys and moves the cluster to initialized-and-sealed; calling
initialize again on the resulting cluster (with any shares/threshold) fails
with the already-initialized rejection and leaves the state unchanged, so
the unseal material is returned exactly once. -/
theorem initialize_once_then_already_initialized
    (secret_shares secret_threshold s2 t2 : Nat) (st : InitState)
    (h : st.initializedFlag = false) :
    (Vault.initializeVault secret_shares secret_threshold st).1 =
      .ok (st.freshRootToken, (List.range secret_shares).map st.freshKey) ∧
    ((Vault.initializeVault secret_shares secret_threshold st).2).initializedFlag = true ∧
    ((Vault.initializeVault secret_shares secret_threshold st).2).sealedFlag = true ∧
    Vault.initializeVault s2 t2
        ((Vault.initializeVault secret_shares secret_threshold st).2) =
      (.error alreadyInitializedErr,
       (Vault.initializeVault secret_shares secret_threshold st).2) := by
  simp [Vault.initializeVault, sysInit, h]

/-- C2 witness: the claim theorem evaluated on a concrete uninitialized
cluster, initialized with 3 shares and threshold 2. -/
theorem initialize_once_witness :
    (Vault.initializeVault 3 2 initStateEx).1 =
      .ok ("root-token", ["unseal-key-0", "unseal-key-1", "unseal-key-2"]) ∧
    ((Vault.initializeVault 3 2 initStateEx).2).initializedFlag = true ∧
    ((Vault.initializeVault 3 2 initStateEx).2).sealedFlag = true ∧
    Vault.initializeVault 3 2 ((Vault.initializeVault 3 2 initStateEx).2) =
      (.error alreadyInitializedErr, (Vault.initializeVault 3 2 initStateEx).2) :=
  initialize_once_then_already_initialized 3 2 3 2 initStateEx rfl

/-- The submission loop succeeds and submits every key, in order, when
every submission succeeds. -/
theorem submitKeysFrom_all_ok (c : UnsealClient) :
    ∀ (keys : List String) (i : Nat),
      (∀ j, j < keys.length → c.submit (i + j) = .ok ()) →
      submitKeysFrom c i keys = (.ok (), keys) := by
  intro keys
  induction keys with
  | nil => intro i _; rfl
  | cons k rest ih =>
      intro i h
      have h0 : c.submit i = .ok () := by simpa using h 0 (by simp)
      have hrest : ∀ j, j < rest.length → c.submit ((i + 1) + j) = .ok () := by
        intro j hj
        have hh := h (j + 1) (by simpa using Nat.succ_lt_succ hj)
        rwa [show i + (j + 1) = (i + 1) + j by omega] at hh
      simp [submitKeysFrom, h0, ih (i + 1) hrest]

/-- The submission loop stops at the first failing submission: it returns
that error, having submitted exactly the keys up to and including the
failing one, in order. -/
theorem submitKeysFrom_first_failure (c : UnsealClient) :
    ∀ (keys : List String) (i fi : Nat) (e : VaultErr),
      fi < keys.length →
      (∀ j, j < fi → c.submit (i + j) = .ok ()) →
      c.submit (i + fi) = .error e →
      submitKeysFrom c i keys = (.error e, keys.take (fi + 1)) := by
  intro keys
  induction keys with
  | nil => intro i fi e hlt _ _; simp at hlt
  | cons k rest ih =>
      intro i fi e hlt hpre hfail
      cases fi with
      | zero =>
          have h0 : c.submit i = .error e := by simpa using hfail
          simp [submitKeysFrom, h0]
      | succ n =>
          have h0 : c.submit i = .ok () := by
            simpa using hpre 0 (Nat.succ_pos n)
          have hpre2 : ∀ j, j < n → c.submit ((i + 1) + j) = .ok () := by
            intro j hj
            have hh := hpre (j + 1) (Nat.succ_lt_succ hj)
            rwa [show i + (j + 1) = (i + 1) + j by omega] at hh
          have hfail2 : c.submit ((i + 1) + n) = .error e := by
            rwa [show i + (n + 1) = (i + 1) + n by omega] at hfail
          have hlt2 : n < rest.length := by simpa using Nat.lt_of_succ_lt_succ hlt
          simp [submitKeysFrom, h0, ih (i + 1) n e hlt2 hpre2 hfail2]

/-- C1 (amended): the keys are submitted one at a time in list order,
stopping at the first rejected submission; a rejection of the InvalidRequest
class is swallowed — unseal returns normally — when the follow-up
seal-status query reports not sealed, and is re-raised when it reports still
sealed; a rejection of any other class (including transport-level errors)
is re-raised without consulting the seal status. -/
theorem unseal_submission_and_error_policy (c : UnsealClient) (keys : List String) :
    ((∀ j, j < keys.length → c.submit j = .ok ()) →
        Vault.unsealVault c keys = (.ok (), keys)) ∧
    (∀ (i : Nat) (e : VaultErr), i < keys.length →
      (∀ j, j < i → c.submit j = .ok ()) →
      c.submit i = .error e →
        ((Vault.unsealVault c keys).2 = keys.take (i + 1) ∧
         (e.isInvalidRequest = true → c.sealedQuery = .ok false →
            (Vault.unsealVault c keys).1 = .ok ()) ∧
         (e.isInvalidRequest = true → c.sealedQuery = .ok true →
            (Vault.unsealVault c keys).1 = .error e) ∧
         (e.isInvalidRequest = false →
            (Vault.unsealVault c keys).1 = .error e))) := by
  constructor
  · intro hall
    have h := submitKeysFrom_all_ok c keys 0 (by simpa using hall)
    simp [Vault.unsealVault, h]
  · intro i e hlt hpre hfail
    have h := submitKeysFrom_first_failure c keys 0 i e hlt
      (by simpa using hpre) (by simpa using hfail)
    have h2 : (Vault.unsealVault c keys).2 = keys.take (i + 1) := by
      simp only [Vault.unsealVault, h]
      by_cases hinv : e.isInvalidRequest = true
      · simp only [hinv, if_true]
        cases c.sealedQuery with
        | ok b => cases b <;> rfl
        | error e2 => rfl
      · simp [hinv]
    refine ⟨h2, ?_, ?_, ?_⟩
    · intro hinv hsq
      simp [Vault.unsealVault, h, hinv, hsq]
    · intro hinv hsq
      simp [Vault.unsealVault, h, hinv, hsq]
    · intro hinv
      simp [Vault.unsealVault, h, hinv]

/-- C1 counterexample: the claim as stated — any rejection with the cluster
confirmed unsealed is swallowed — fails on the code. Here the single
submission is rejected at the transport level (RequestException) while the
seal-status query reports not sealed, yet unseal re-raises the rejection
instead of returning normally: the source catches only InvalidRequest. -/
theorem unseal_nonInvalidRequest_not_swallowed :
    unsealClientCrash.submit 0 = .error (.requestException "connection aborted") ∧
    unsealClientCrash.sealedQuery = .ok false ∧
    (Vault.unsealVault unsealClientCrash ["key-1"]).1 =
      .error (.requestException "connection aborted") :=
  ⟨rfl, rfl, rfl⟩

/-- C1 witness: the amended claim evaluated on concrete clients — a clean
unseal submits both keys in order and returns normally, and a second
unsealer winning the race (InvalidRequest on the second key, seal status
reporting not sealed) is swallowed. -/
theorem unseal_policy_witness :
    Vault.unsealVault unsealClientOk ["key-1", "key-2"] = (.ok (), ["key-1", "key-2"]) ∧
    (Vault.unsealVault unsealClientRace ["key-1", "key-2"]).1 = .ok () ∧
    (Vault.unsealVault unsealClientRace ["key-1", "key-2"]).2 = ["key-1", "key-2"] := by
  have hok := (unseal_submission_and_error_policy unsealClientOk ["key-1", "key-2"]).1
    (fun j hj => rfl)
  have hrace := (unseal_submission_and_error_policy unsealClientRace ["key-1", "key-2"]).2
    1 (.invalidRequest "already unsealed") (by decide)
    (fun j hj => by
      have hj0 : j = 0 := by omega
      subst hj0
      rfl)
    rfl
  exact ⟨hok, hrace.2.1 rfl rfl, by simpa using hrace.1⟩

/-- The scan of is_node_in_raft_peers is the any-combinator of an exact
node_id comparison over the peer list. -/
theorem scanForNode_eq_any (node_id : String) (l : List RaftPeer) :
    Vault.scanForNode node_id l = l.any (fun p => p.node_id == node_id) := by
  induction l with
  | nil => rfl
  | cons p rest ih =>
      simp only [Vault.scanForNode, List.any_cons, ih]
      cases hp : p.node_id == node_id <;> simp

/-- C4: on a cluster with peer list {a, b, c}, remove_raft_node on b
succeeds, the next peer-configuration read yields {a, c},
get_num_raft_peers returns 2 and is_node_in_raft_peers on b returns False;
and membership is decided by exact, case-sensitive string equality on
node_id — an id is a member iff it literally equals one of a, b, c. -/
theorem remove_raft_node_scenario (a b c id : String)
    (hba : b ≠ a) (hbc : b ≠ c) :
    (Vault.remove_raft_node none b ⟨[⟨a⟩, ⟨b⟩, ⟨c⟩]⟩).1 = .ok () ∧
    ((Vault.remove_raft_node none b ⟨[⟨a⟩, ⟨b⟩, ⟨c⟩]⟩).2).peers = [⟨a⟩, ⟨c⟩] ∧
    Vault.get_num_raft_peers (Vault.remove_raft_node none b ⟨[⟨a⟩, ⟨b⟩, ⟨c⟩]⟩).2 = 2 ∧
    Vault.is_node_in_raft_peers b (Vault.remove_raft_node none b ⟨[⟨a⟩, ⟨b⟩, ⟨c⟩]⟩).2 = false ∧
    (Vault.is_node_in_raft_peers id ⟨[⟨a⟩, ⟨b⟩, ⟨c⟩]⟩ = true ↔
      (id = a ∨ id = b ∨ id = c)) := by
  have hab : (a != b) = true := bne_iff_ne.mpr (Ne.symm hba)
  have hcb : (c != b) = true := bne_iff_ne.mpr (Ne.symm hbc)
  have hab2 : (a == b) = false := beq_eq_false_iff_ne.mpr (Ne.symm hba)
  have hcb2 : (c == b) = false := beq_eq_false_iff_ne.mpr (Ne.symm hbc)
  have hfilter : (Vault.remove_raft_node none b ⟨[⟨a⟩, ⟨b⟩, ⟨c⟩]⟩).2 =
      ⟨[⟨a⟩, ⟨c⟩]⟩ := by
    simp [Vault.remove_raft_node, sysRemoveRaftNode, List.filter, hab, hcb]
  refine ⟨rfl, by rw [hfilter], by rw [hfilter]; rfl, ?_, ?_⟩
  · rw [hfilter]
    simp [Vault.is_node_in_raft_peers, sysReadRaftConfig, Vault.scanForNode,
      hab2, hcb2]
  · simp only [Vault.is_node_in_raft_peers, sysReadRaftConfig,
      scanForNode_eq_any, List.any_cons, List.any_nil, Bool.or_eq_true,
      beq_iff_eq, Bool.false_eq_true, or_false]
    constructor
    · rintro (h | h | h)
      · exact Or.inl h.symm
      · exact Or.inr (Or.inl h.symm)
      · exact Or.inr (Or.inr h.symm)
    · rintro (h | h | h)
      · exact Or.inl h.symm
      · exact Or.inr (Or.inl h.symm)
      · exact Or.inr (Or.inr h.symm)

/-- C4 witness: the claim theorem evaluated on the concrete peer list
{"a", "b", "c"}, with the membership question asked for "B" — the
uppercase variant of a member id is not a member, since matching is exact
and case-sensitive. -/
theorem remove_raft_node_scenario_witness :
    (Vault.remove_raft_node none "b" ⟨[⟨"a"⟩, ⟨"b"⟩, ⟨"c"⟩]⟩).1 = .ok () ∧
    ((Vault.remove_raft_node none "b" ⟨[⟨"a"⟩, ⟨"b"⟩, ⟨"c"⟩]⟩).2).peers = [⟨"a"⟩, ⟨"c"⟩] ∧
    Vault.get_num_raft_peers (Vault.remove_raft_node none "b" ⟨[⟨"a"⟩, ⟨"b"⟩, ⟨"c"⟩]⟩).2 = 2 ∧
    Vault.is_node_in_raft_peers "b" (Vault.remove_raft_node none "b" ⟨[⟨"a"⟩, ⟨"b"⟩, ⟨"c"⟩]⟩).2 = false ∧
    (Vault.is_node_in_raft_peers "B" ⟨[⟨"a"⟩, ⟨"b"⟩, ⟨"c"⟩]⟩ = true ↔
      ("B" = "a" ∨ "B" = "b" ∨ "B" = "c")) :=
  remove_raft_node_scenario "a" "b" "c" "B" (by decide) (by decide)

/-- C5: removing a node id that is not in the current peer list completes
without raising and leaves the peer list unchanged, indistinguishable from
removing a member; a transport failure instead propagates (and also leaves
the peer list unchanged). -/
theorem remove_raft_node_nonmember (id : String) (st : RaftState) (e : VaultErr)
    (h : ∀ p ∈ st.peers, p.node_id ≠ id) :
    Vault.remove_raft_node none id st = (.ok (), st) ∧
    Vault.remove_raft_node (some e) id st = (.error e, st) := by
  refine ⟨?_, rfl⟩
  cases st with
  | mk peers =>
      have hf : List.filter (fun p => p.node_id != id) peers = peers :=
        List.filter_eq_self.mpr (fun p hp => by
          simpa [bne_iff_ne] using h p hp)
      simp [Vault.remove_raft_node, sysRemoveRaftNode, hf]

/-- C5 witness: the claim theorem evaluated on a concrete two-peer cluster
and a non-member id, with a transport error for the failing variant. -/
theorem remove_raft_node_nonmember_witness :
    Vault.remove_raft_node none "node-x" ⟨[⟨"node-a"⟩, ⟨"node-b"⟩]⟩ =
      (.ok (), ⟨[⟨"node-a"⟩, ⟨"node-b"⟩]⟩) ∧
    Vault.remove_raft_node (some (.requestException "timeout")) "node-x"
        ⟨[⟨"node-a"⟩, ⟨"node-b"⟩]⟩ =
      (.error (.requestException "timeout"), ⟨[⟨"node-a"⟩, ⟨"node-b"⟩]⟩) :=
  remove_raft_node_nonmember "node-x" ⟨[⟨"node-a"⟩, ⟨"node-b"⟩]⟩
    (.requestException "timeout") (by decide)

/-- C6: enabling an already-enabled resource is idempotent. Starting from a
state without the resource, the first call to enable_audit_device,
enable_approle_auth_method or enable_secrets_engine succeeds, and a second
call on the result also returns normally — the cluster's already-enabled
InvalidRequest rejection is caught — and leaves exactly one resource
enabled at the relevant mount (for an audit device the mount is the device
type's default mount, since the wrapper passes the path only as the
file_path option). -/
theorem enable_twice_idempotent (device_type : AuditDeviceType)
    (backend_type : SecretsBackend) (path : String) (st : MountState)
    (ha : device_type.value ∉ st.auditDevices)
    (hm : "approle" ∉ st.authMethods)
    (hs : path ∉ st.secretsEngines) :
    (Vault.enable_audit_device device_type path st).1 = .ok () ∧
    (Vault.enable_audit_device device_type path
        (Vault.enable_audit_device device_type path st).2).1 = .ok () ∧
    ((Vault.enable_audit_device device_type path
        (Vault.enable_audit_device device_type path st).2).2).auditDevices.count
      device_type.value = 1 ∧
    (Vault.enable_approle_auth_method st).1 = .ok () ∧
    (Vault.enable_approle_auth_method (Vault.enable_approle_auth_method st).2).1 = .ok () ∧
    ((Vault.enable_approle_auth_method
        (Vault.enable_approle_auth_method st).2).2).authMethods.count "approle" = 1 ∧
    (Vault.enable_secrets_engine backend_type path st).1 = .ok () ∧
    (Vault.enable_secrets_engine backend_type path
        (Vault.enable_secrets_engine backend_type path st).2).1 = .ok () ∧
    ((Vault.enable_secrets_engine backend_type path
        (Vault.enable_secrets_engine backend_type path st).2).2).secretsEngines.count
      path = 1 := by
  have hacount : st.auditDevices.count device_type.value = 0 :=
    List.count_eq_zero.mpr ha
  have hmcount : st.authMethods.count "approle" = 0 :=
    List.count_eq_zero.mpr hm
  have hscount : st.secretsEngines.count path = 0 :=
    List.count_eq_zero.mpr hs
  refine ⟨?_, ?_, ?_, ?_, ?_, ?_, ?_, ?_, ?_⟩ <;>
    simp [Vault.enable_audit_device, Vault.enable_approle_auth_method,
      Vault.enable_secrets_engine, sysEnableAuditDevice, sysEnableAuthMethod,
      sysEnableSecretsEngine, VaultErr.isInvalidRequest, ha, hm, hs,
      List.count_append, hacount, hmcount, hscount]

/-- C6 witness: the claim theorem evaluated on an empty mount table with a
file audit device, the kv-v2 backend and the path "charm-kv". -/
theorem enable_twice_idempotent_witness :
    (Vault.enable_audit_device .file "charm-kv" ⟨[], [], []⟩).1 = .ok () ∧
    (Vault.enable_audit_device .file "charm-kv"
        (Vault.enable_audit_device .file "charm-kv" ⟨[], [], []⟩).2).1 = .ok () ∧
    ((Vault.enable_audit_device .file "charm-kv"
        (Vault.enable_audit_device .file "charm-kv" ⟨[], [], []⟩).2).2).auditDevices.count
      (AuditDeviceType.file).value = 1 ∧
    (Vault.enable_approle_auth_method ⟨[], [], []⟩).1 = .ok () ∧
    (Vault.enable_approle_auth_method
        (Vault.enable_approle_auth_method ⟨[], [], []⟩).2).1 = .ok () ∧
    ((Vault.enable_approle_auth_method
        (Vault.enable_approle_auth_method ⟨[], [], []⟩).2).2).authMethods.count
      "approle" = 1 ∧
    (Vault.enable_secrets_engine .kv_v2 "charm-kv" ⟨[], [], []⟩).1 = .ok () ∧
    (Vault.enable_secrets_engine .kv_v2 "charm-kv"
        (Vault.enable_secrets_engine .kv_v2 "charm-kv" ⟨[], [], []⟩).2).1 = .ok () ∧
    ((Vault.enable_secrets_engine .kv_v2 "charm-kv"
        (Vault.enable_secrets_engine .kv_v2 "charm-kv" ⟨[], [], []⟩).2).2).secretsEngines.count
      "charm-kv" = 1 :=
  enable_twice_idempotent .file .kv_v2 "charm-kv" ⟨[], [], []⟩
    (by decide) (by decide) (by decide)

/-- C9: create_snapshot returns the storage contents stamped with the
current unseal key, and restore_snapshot — which always uses the forced
restore variant — succeeds on a cluster whose currently active unseal key
differs from the key at backup time, installing the snapshot's contents;
the non-forced restore endpoint would have rejected the same restore. -/
theorem snapshot_restore_after_key_rotation (st0 st1 : StorageState)
    (hkey : st1.activeUnsealKey ≠ st0.activeUnsealKey) :
    Vault.create_snapshot st0 =
      (.ok { payload := st0.payload, sealKeyAtBackup := st0.activeUnsealKey }, st0) ∧
    (Vault.restore_snapshot
        { payload := st0.payload, sealKeyAtBackup := st0.activeUnsealKey } st1).1 =
      .ok () ∧
    ((Vault.restore_snapshot
        { payload := st0.payload, sealKeyAtBackup := st0.activeUnsealKey } st1).2).payload =
      st0.payload ∧
    (sysRestoreRaftSnapshot
        { payload := st0.payload, sealKeyAtBackup := st0.activeUnsealKey } st1).1 =
      .error (.invalidRequest "could not verify snapshot") ∧
    Vault.restore_snapshot
        { payload := st0.payload, sealKeyAtBackup := st0.activeUnsealKey } st1 =
      sysForceRestoreRaftSnapshot
        { payload := st0.payload, sealKeyAtBackup := st0.activeUnsealKey } st1 := by
  refine ⟨rfl, rfl, rfl, ?_, rfl⟩
  simp [sysRestoreRaftSnapshot, Ne.symm hkey]

/-- C9 witness: the claim theorem evaluated on a cluster backed up under
"old-key" and restored on a cluster whose active unseal key is "new-key". -/
theorem snapshot_restore_after_key_rotation_witness :
    Vault.create_snapshot ⟨"data-v1", "old-key"⟩ =
      (.ok { payload := "data-v1", sealKeyAtBackup := "old-key" }, ⟨"data-v1", "old-key"⟩) ∧
    (Vault.restore_snapshot
        { payload := "data-v1", sealKeyAtBackup := "old-key" } ⟨"data-v2", "new-key"⟩).1 =
      .ok () ∧
    ((Vault.restore_snapshot
        { payload := "data-v1", sealKeyAtBackup := "old-key" } ⟨"data-v2", "new-key"⟩).2).payload =
      "data-v1" ∧
    (sysRestoreRaftSnapshot
        { payload := "data-v1", sealKeyAtBackup := "old-key" } ⟨"data-v2", "new-key"⟩).1 =
      .error (.invalidRequest "could not verify snapshot") ∧
    Vault.restore_snapshot
        { payload := "data-v1", sealKeyAtBackup := "old-key" } ⟨"data-v2", "new-key"⟩ =
      sysForceRestoreRaftSnapshot
        { payload := "data-v1", sealKeyAtBackup := "old-key" } ⟨"data-v2", "new-key"⟩ :=
  snapshot_restore_after_key_rotation ⟨"data-v1", "old-key"⟩ ⟨"data-v2", "new-key"⟩
    (by decide)

end VaultClient
